import Mathlib

/-!
Verification development for the PlanetaryComputerExamples repository.

The repository consists of two Jupyter notebooks:
  * `datasets/sentinel-1-grd/sentinel-1-grd-example.ipynb` (Sentinel-1 GRD),
  * an HREA example notebook (`src/unnamed/part_000`).

Both are linear sequences of Python cells that configure catalog access,
issue STAC searches, select items, open raster assets and apply small
numeric transforms before plotting.  This file shallowly embeds those
cells: pixel values become a four-constructor model of IEEE doubles
(`Val`), xarray `DataArray`s become nested lists of `Val`, the STAC search
calls become literal parameter records, the fallible Python operations
(`items[0]`, `next(gen)`, single-element tuple unpacking) become
`Except`-valued functions, and the cell order of each notebook becomes a
literal list of operation tags.
-/

namespace PCExamples

/-- Model of an IEEE double as it occurs in the notebooks: NaN, the two
infinities, or a finite value (modelled as a rational; the notebooks never
depend on rounding).  Signed zeros are collapsed to `fin 0`. -/
inductive Val where
  | nan : Val
  | posinf : Val
  | neginf : Val
  | fin : ℚ → Val
deriving DecidableEq

/-- Predicate: `isNan v = true` exactly when `v` is the NaN value. -/
def isNan : Val → Bool
  | Val.nan => true
  | _ => false

/-- Strict positivity test, the predicate used by `where(lambda x: x > 0)`:
NaN compares false, `+inf > 0` is true. -/
def gt0 : Val → Bool
  | Val.nan => false
  | Val.posinf => true
  | Val.neginf => false
  | Val.fin q => decide (0 < q)

/-- IEEE division on modelled doubles, as used for `vv / vh` and for the
rescaling divisions by the constants 600, 270 and 9.  Division by zero of a
nonzero finite value yields an infinity (the notebooks have no negative
zero, so the sign is that of the numerator); `0/0`, `inf/inf` yield NaN. -/
def divVal : Val → Val → Val
  | Val.nan, _ => Val.nan
  | _, Val.nan => Val.nan
  | Val.posinf, Val.posinf => Val.nan
  | Val.posinf, Val.neginf => Val.nan
  | Val.neginf, Val.posinf => Val.nan
  | Val.neginf, Val.neginf => Val.nan
  | Val.posinf, Val.fin q => if q < 0 then Val.neginf else Val.posinf
  | Val.neginf, Val.fin q => if q < 0 then Val.posinf else Val.neginf
  | Val.fin _, Val.posinf => Val.fin 0
  | Val.fin _, Val.neginf => Val.fin 0
  | Val.fin a, Val.fin b =>
      if b = 0 then
        if a = 0 then Val.nan else if a < 0 then Val.neginf else Val.posinf
      else Val.fin (a / b)

/-- Multiplication of a modelled double by a nonzero finite scalar, as in
`10 * np.log10(raw)`. -/
def mulScalar (c : ℚ) : Val → Val
  | Val.nan => Val.nan
  | Val.posinf => if c = 0 then Val.nan else if c < 0 then Val.neginf else Val.posinf
  | Val.neginf => if c = 0 then Val.nan else if c < 0 then Val.posinf else Val.neginf
  | Val.fin q => Val.fin (c * q)

/-- Clipping `clip(lo, hi)` on a modelled double: NaN passes through, `+inf` clips
to `hi`, `-inf` clips to `lo`, and a finite value is clamped into
`[lo, hi]`. -/
def clipVal (lo hi : ℚ) : Val → Val
  | Val.nan => Val.nan
  | Val.posinf => Val.fin hi
  | Val.neginf => Val.fin lo
  | Val.fin q => Val.fin (max lo (min hi q))

/-- Masking `where(lambda x: x > 0)` with no replacement argument: values that are
not strictly positive (NaN included) become NaN. -/
def whereGt0 (v : Val) : Val := if gt0 v then v else Val.nan

/-- Square root `np.sqrt` on a modelled double.  The domain-error branch (a negative
argument, `-inf` included) returns NaN; the finite value returned on the
in-domain branch is modelled by `Rat.sqrt`, which is exact whenever the
claims evaluate it. -/
def sqrtVal : Val → Val
  | Val.nan => Val.nan
  | Val.posinf => Val.posinf
  | Val.neginf => Val.nan
  | Val.fin q => if q < 0 then Val.nan else Val.fin (Rat.sqrt q)

/-- Logarithm `np.log10` on a modelled double.  The domain-error branch (a negative
argument, `-inf` included) returns NaN, `log10 0 = -inf`, and the finite
value returned for a positive finite argument is modelled by the integer
logarithm `Int.log 10`; only the NaN / infinity structure of the result
matters to the claims. -/
def log10Val : Val → Val
  | Val.nan => Val.nan
  | Val.posinf => Val.posinf
  | Val.neginf => Val.nan
  | Val.fin q =>
      if q < 0 then Val.nan
      else if q = 0 then Val.neginf
      else Val.fin ((Int.log 10 q : ℤ) : ℚ)

/-- The argument is in the domain-error region of `np.sqrt`: strictly
negative (so the evaluation would emit "invalid value" and produce NaN). -/
def sqrtDomErr : Val → Bool
  | Val.neginf => true
  | Val.fin q => decide (q < 0)
  | _ => false

/-- The argument is outside the strictly positive domain of `np.log10`:
zero or negative (zero triggers the divide warning and yields `-inf`,
negative arguments the invalid-value warning and NaN). -/
def logDomErr : Val → Bool
  | Val.neginf => true
  | Val.fin q => decide (q ≤ 0)
  | _ => false

/-- A squeezed two-dimensional `DataArray` (rows of pixels). -/
abbrev Arr2 := List (List Val)

/-- A three-dimensional `DataArray` with a leading band axis. -/
abbrev Arr3 := List Arr2

/-- Elementwise map over a two-dimensional array. -/
def map2 (f : Val → Val) (a : Arr2) : Arr2 := a.map (List.map f)

/-- Elementwise map over a three-dimensional array. -/
def map3 (f : Val → Val) (a : Arr3) : Arr3 := a.map (map2 f)

/-- Elementwise combination of two aligned two-dimensional arrays, as in
`vv / vh` on same-shaped `DataArray`s. -/
def zip2 (f : Val → Val → Val) (a b : Arr2) : Arr2 :=
  List.zipWith (List.zipWith f) a b

/-- Division of every element of an array by a finite scalar. -/
def divScalar (a : Arr2) (c : ℚ) : Arr2 := map2 (fun v => divVal v (Val.fin c)) a

/-- Elementwise division of two aligned arrays. -/
def divArr (a b : Arr2) : Arr2 := zip2 divVal a b

/-- Clipping `clip(lo, hi)` applied elementwise to a three-dimensional array. -/
def clip3 (lo hi : ℚ) (a : Arr3) : Arr3 := map3 (clipVal lo hi) a

/-- Masking `where(lambda x: x > 0)` applied elementwise to a three-dimensional
array. -/
def where3 (a : Arr3) : Arr3 := map3 whereGt0 a

/-- Element lookup in a two-dimensional array; out-of-range indices give
NaN (they never occur in the notebooks and NaN keeps lemmas uniform). -/
def get2 (a : Arr2) (i j : Nat) : Val := (a.getD i []).getD j Val.nan

/-- Element lookup in a three-dimensional array (band, row, column). -/
def get3 (a : Arr3) (b i j : Nat) : Val := ((a.getD b []).getD i []).getD j Val.nan

/-- The false-color composite cell of the Sentinel-1 notebook:
`r = vv / 600`, `g = vh / 270`, `b = (vv / vh) / 9`,
`data = xr.concat([r, g, b], dim="band").clip(0, 1).where(lambda x: x > 0)`. -/
def falseColor (vv vh : Arr2) : Arr3 :=
  let r := divScalar vv 600
  let g := divScalar vh 270
  let b := divScalar (divArr vv vh) 9
  where3 (clip3 0 1 [r, g, b])

/-- Flipping `np.flip(data, axis=(1, 2))`: reverse the row order of every band and
reverse every row, leaving the band axis in place. -/
def flip3 (a : Arr3) : Arr3 := a.map (fun band => (band.map List.reverse).reverse)

/-- The second rendering cell of the Sentinel-1 notebook:
`np.flip(data, axis=(1, 2)).clip(0, 1)`. -/
def flippedComposite (vv vh : Arr2) : Arr3 :=
  clip3 0 1 (flip3 (falseColor vv vh))

/-- The distribution cell of the Sentinel-1 notebook:
`raw = vv.where(lambda x: x > 0).data.ravel()`, with the flattened array
modelled as a list of pixel values. -/
def rawOf (vvflat : List Val) : List Val := vvflat.map whereGt0

/-- The dataframe rows `(power, amplitude, dB)` built from `raw`:
`power = raw`, `amplitude = np.sqrt(raw)`, `dB = 10 * np.log10(raw)`. -/
def dfRows (vvflat : List Val) : List (Val × Val × Val) :=
  (rawOf vvflat).map (fun v => (v, sqrtVal v, mulScalar 10 (log10Val v)))

/-- Dropping `.dropna()`: keep exactly the rows none of whose three entries is
NaN. -/
def dropna (rows : List (Val × Val × Val)) : List (Val × Val × Val) :=
  rows.filter (fun r => !(isNan r.1 || isNan r.2.1 || isNan r.2.2))

/-- The Python exceptions the notebook cells can raise. -/
inductive PyError where
  | indexError : PyError
  | stopIteration : PyError
  | valueError : PyError
  | keyError : PyError
deriving DecidableEq

/-- A STAC asset as the notebooks read it: a title, an href (URL) and a
list of roles. -/
structure Asset where
  title : String
  href : String
  roles : List String
deriving DecidableEq

/-- A STAC item as the notebooks read it: an id, named assets and
key-value properties. -/
structure Item where
  id : String
  assets : List (String × Asset)
  properties : List (String × String)
deriving DecidableEq

/-- Does the second character list begin with the first? (Helper for the
substring test behind Python's `"Djibouti" in x.id`.) -/
def listStarts : List Char → List Char → Bool
  | [], _ => true
  | _ :: _, [] => false
  | a :: as, b :: bs => a == b && listStarts as bs

/-- Substring search on character lists. -/
def listContainsSub (needle : List Char) : List Char → Bool
  | [] => listStarts needle []
  | b :: bs => listStarts needle (b :: bs) || listContainsSub needle bs

/-- Python's `needle in hay` on strings: substring containment. -/
def strContains (needle hay : String) : Bool :=
  listContainsSub needle.toList hay.toList

/-- Python list indexing `xs[i]` (nonnegative index): raises `IndexError`
when the index is out of range. -/
def pyIndex {α : Type} (xs : List α) (i : Nat) : Except PyError α :=
  match xs.get? i with
  | some x => Except.ok x
  | none => Except.error PyError.indexError

/-- Python's `next(gen)` on the item generator `search.items()`, modelled
on the list of items the generator would yield: raises `StopIteration`
when the generator is exhausted. -/
def pyNext {α : Type} (gen : List α) : Except PyError α :=
  match gen with
  | [] => Except.error PyError.stopIteration
  | x :: _ => Except.ok x

/-- Python single-element tuple unpacking `(item,) = xs`: raises
`ValueError` unless the list has exactly one element. -/
def unpackSingle {α : Type} (xs : List α) : Except PyError α :=
  match xs with
  | [x] => Except.ok x
  | _ => Except.error PyError.valueError

/-- Python dict lookup `item.assets[key]`: raises `KeyError` when the key
is absent. -/
def pyLookup (assocs : List (String × Asset)) (key : String) : Except PyError Asset :=
  match assocs.find? (fun kv => kv.1 == key) with
  | some kv => Except.ok kv.2
  | none => Except.error PyError.keyError

/-- The HREA notebook's Djibouti filter:
`[x for x in items if "Djibouti" in x.id]`. -/
def djiboutiFilter (items : List Item) : List Item :=
  items.filter (fun x => strContains "Djibouti" x.id)

/-- The Sentinel-1 preview cell: `item = items[0]` followed by
`item.assets["rendered_preview"].href`; any failure propagates, since no
cell catches exceptions. -/
def previewCell (items : List Item) : Except PyError String := do
  let item ← pyIndex items 0
  let asset ← pyLookup item.assets "rendered_preview"
  pure asset.href

/-- The Sentinel-1 SM-mode cell: `gen = search.items(); item = next(gen)`
followed by `item.assets["rendered_preview"].href`. -/
def smCell (gen : List Item) : Except PyError String := do
  let item ← pyNext gen
  let asset ← pyLookup item.assets "rendered_preview"
  pure asset.href

/-- The HREA selection cell:
`(item,) = [x for x in items if "Djibouti" in x.id]` followed by the
data-asset listing
`[f"{key}: {asset.title}" for key, asset in item.assets.items() if "data" in asset.roles]`. -/
def hreaSelectCell (items : List Item) : Except PyError (List String) := do
  let item ← unpackSingle (djiboutiFilter items)
  pure ((item.assets.filter (fun kv => kv.2.roles.contains "data")).map
    (fun kv => kv.1 ++ ": " ++ kv.2.title))

/-- The value of one clause of a `query=` argument to `catalog.search`. -/
inductive QueryVal where
  | str : String → QueryVal
  | strList : List String → QueryVal
deriving DecidableEq

/-- One clause of a `query=` argument: a property name, an operator and a
value, e.g. `"sar:instrument_mode": {"eq": "SM"}`. -/
structure QueryClause where
  prop : String
  op : String
  value : QueryVal
deriving DecidableEq

/-- A GeoJSON point used as `intersects=`. -/
structure GeoPoint where
  lon : ℚ
  lat : ℚ
deriving DecidableEq

/-- The parameters of one `catalog.search(...)` call as the notebooks
write them. -/
structure SearchParams where
  collections : List String
  bbox : Option (List ℚ) := none
  datetime : Option String := none
  intersects : Option GeoPoint := none
  query : List QueryClause := []
  limit : Option Nat := none
deriving DecidableEq

/-- Sentinel-1 notebook, first search: bounding box over Redmond and the
year 2021. -/
def sentinelBboxSearch : SearchParams where
  collections := ["sentinel-1-grd"]
  bbox := some [-122.2751, 47.5469, -121.9613, 47.7458]
  datetime := some "2021-01-01/2021-12-31"

/-- Sentinel-1 notebook, second search: the SM acquisition-mode example,
filtering on `sar:instrument_mode` and `sar:polarizations` with
`limit=5`. -/
def sentinelSmSearch : SearchParams where
  collections := ["sentinel-1-grd"]
  query := [⟨"sar:instrument_mode", "eq", QueryVal.str "SM"⟩,
            ⟨"sar:polarizations", "eq", QueryVal.strList ["VV", "VH"]⟩]
  limit := some 5

/-- HREA notebook, first search: point intersection over Djibouti on
2019-12-31. -/
def hreaPointSearch : SearchParams where
  collections := ["hrea"]
  intersects := some ⟨42.4841, 11.7101⟩
  datetime := some "2019-12-31"

/-- HREA notebook, second search: same point, 2012-12-31 through
2019-12-31. -/
def hreaRangeSearch : SearchParams where
  collections := ["hrea"]
  intersects := some ⟨42.4841, 11.7101⟩
  datetime := some "2012-12-31/2019-12-31"

/-- Every `catalog.search` call issued anywhere in the repository, in
notebook order. -/
def allSearches : List SearchParams :=
  [sentinelBboxSearch, sentinelSmSearch, hreaPointSearch, hreaRangeSearch]

/-- A search uses only the basic criteria named by the spec: collection
name, bounding box, date range or point intersection — no property query
and no page limit. -/
def usesOnlyBasic (s : SearchParams) : Bool :=
  s.query.isEmpty && s.limit.isNone

/-- A rasterio block window: column/row offsets and extent in pixels. -/
structure Window where
  col_off : Nat
  row_off : Nat
  width : Nat
  height : Nat
deriving DecidableEq

/-- The block window of a COG at block-grid position `(r, c)`, for block
size `bh × bw` over an `H × W` raster: edge blocks are truncated to the
raster bounds. -/
def blockWindow (bh bw H W r c : Nat) : Window :=
  ⟨c * bw, r * bh, min bw (W - c * bw), min bh (H - r * bh)⟩

/-- Enumeration `list(src.block_windows())`: all `((row, col), window)` pairs in
row-major order over the block grid. -/
def block_windows (bh bw H W : Nat) : List ((Nat × Nat) × Window) :=
  ((List.range ((H + bh - 1) / bh)).map (fun r =>
    (List.range ((W + bw - 1) / bw)).map (fun c =>
      ((r, c), blockWindow bh bw H W r c)))).flatten

/-- The window index the HREA notebook uses: `i_window = 2`. -/
def i_window : Nat := 2

/-- The window-selection line `_, window = windows[i_window]`. -/
def selectedWindow (ws : List ((Nat × Nat) × Window)) : Except PyError Window := do
  let pair ← pyIndex ws i_window
  pure pair.2

/-- Slicing `data_array.rio.isel_window(window)`: the sub-array of the rows
`[row_off, row_off + height)` and columns `[col_off, col_off + width)`. -/
def isel_window (a : Arr2) (w : Window) : Arr2 :=
  ((a.drop w.row_off).take w.height).map (fun row => (row.drop w.col_off).take w.width)

/-- The block geometry of the HREA `light-composite` asset as printed by
the notebook: 256-pixel blocks over a 421 × 398 raster. -/
def hreaWindows : List ((Nat × Nat) × Window) := block_windows 256 256 421 398

/-- The atomic operations of the notebook cells, tagged with the index of
the search / selection / transform they belong to.  `select s` is the
item-selection step consuming the result of `search s`; `openAsset s`
opens a raster asset of the item(s) selected from `search s`; `plot t`
renders the data produced by `transform t` (plots of untransformed data
carry an id with no matching transform). -/
inductive Op where
  | importLibs : Op
  | credentials : Op
  | search : Nat → Op
  | select : Nat → Op
  | preview : Nat → Op
  | inspect : Op
  | openAsset : Nat → Op
  | transform : Nat → Op
  | plot : Nat → Op
deriving DecidableEq

/-- Index of the first occurrence of an operation in a cell sequence. -/
def opIdx (ops : List Op) (o : Op) : Nat := ops.findIdx (fun x => decide (x = o))

/-- The Sentinel-1 notebook as the sequence of its operations, in cell
order (cells with several operations are listed in Python evaluation
order): imports; `Client.open` with the `planetary_computer.sign_inplace`
modifier; the bbox/datetime search; `items[0]` and its rendered preview;
two metadata inspections; the `vv`/`vh` `open_rasterio` calls; the
distribution dataframe and its facet plot; the false-color composite and
its `imshow`; the orbit-state inspection; the flipped composite and its
`imshow`; the SM-mode search, `next(gen)` and its preview. -/
def sentinelOps : List Op :=
  [Op.importLibs, Op.credentials,
   Op.search 0, Op.select 0, Op.preview 0,
   Op.inspect, Op.inspect,
   Op.openAsset 0,
   Op.transform 0, Op.plot 0,
   Op.transform 1, Op.plot 1,
   Op.inspect,
   Op.transform 2, Op.plot 2,
   Op.search 1, Op.select 1, Op.preview 1]

/-- The HREA notebook as the sequence of its operations, in cell order:
imports; `Client.open` with the signing modifier; the point/datetime
search; the Djibouti unpacking; `open_rasterio` and the full plot; the
windowed `rasterio.open` read with `isel_window` and its plot; the
Dikhil `sel` slice and its plot; the range search with the Djibouti
filter; the `stackstac` asset stacking with the quantile reduction; the
time-series plot. -/
def hreaOps : List Op :=
  [Op.importLibs, Op.credentials,
   Op.search 0, Op.select 0,
   Op.openAsset 0, Op.plot 0,
   Op.openAsset 0, Op.transform 1, Op.plot 1,
   Op.transform 2, Op.plot 2,
   Op.search 1, Op.select 1,
   Op.openAsset 1, Op.transform 3,
   Op.plot 3]

/-- The ordering discipline the temporal claim states, checked position by
position over a cell sequence: credentials are configured before every
search; each search happens exactly once, before its unique item
selection; every asset open of selected items comes after the selection;
every plot of transformed data comes after the transform that produced
it. -/
def wellOrdered (ops : List Op) : Bool :=
  ops.enum.all fun ko =>
    match ko.2 with
    | Op.search s =>
        decide (Op.credentials ∈ ops) &&
        decide (opIdx ops Op.credentials < ko.1) &&
        ((ops.filter (fun x => decide (x = Op.search s))).length == 1)
    | Op.select s =>
        decide (Op.search s ∈ ops) &&
        decide (opIdx ops (Op.search s) < ko.1) &&
        ((ops.filter (fun x => decide (x = Op.select s))).length == 1)
    | Op.openAsset s =>
        decide (Op.select s ∈ ops) &&
        decide (opIdx ops (Op.select s) < ko.1)
    | Op.plot t =>
        !(decide (Op.transform t ∈ ops)) ||
        decide (opIdx ops (Op.transform t) < ko.1)
    | _ => true

/-- A two-dimensional array is rectangular with `H` rows of `W` pixels. -/
def rect2 (H W : Nat) (a : Arr2) : Bool :=
  (a.length == H) && a.all (fun row => row.length == W)

/-- A demonstration item whose id contains "Djibouti". -/
def djiboutiItemA : Item := ⟨"HREA_Djibouti_2019_v1_A", [], []⟩

/-- A second demonstration item whose id contains "Djibouti". -/
def djiboutiItemB : Item := ⟨"HREA_Djibouti_2019_v1_B", [], []⟩

/-- Propositional form of rectangularity: `H` rows, every row of `W`
pixels. -/
def RectP (H W : Nat) (a : Arr2) : Prop :=
  a.length = H ∧ ∀ i, i < H → (a.getD i []).length = W

/- ## Helper lemmas -/

theorem getD_map_comm {α β : Type} (g : α → β) (d : α) (e : β) (hg : g d = e) :
    ∀ (l : List α) (i : Nat), (l.map g).getD i e = g (l.getD i d)
  | [], i => by simp [List.getD, hg]
  | a :: l, 0 => rfl
  | a :: l, i + 1 => by
      simpa using getD_map_comm g d e hg l i

theorem getD_zipWith_comm {α : Type} (f : α → α → α) (d : α) (hd : f d d = d) :
    ∀ (a b : List α), a.length = b.length →
      ∀ i, (List.zipWith f a b).getD i d = f (a.getD i d) (b.getD i d)
  | [], [], _, i => by simp [List.getD, hd]
  | [], _ :: _, h, i => by simp at h
  | _ :: _, [], h, i => by simp at h
  | x :: xs, y :: ys, h, 0 => rfl
  | x :: xs, y :: ys, h, i + 1 => by
      have h' : xs.length = ys.length := by simpa using h
      simpa using getD_zipWith_comm f d hd xs ys h' i

theorem getD_reverse_comm {α : Type} (d : α) (l : List α) (i : Nat)
    (h : i < l.length) :
    l.reverse.getD i d = l.getD (l.length - 1 - i) d := by
  have h' : i < l.reverse.length := by simpa using h
  have h'' : l.length - 1 - i < l.length := by omega
  rw [List.getD_eq_getElem l.reverse d h', List.getD_eq_getElem l d h'',
    List.getElem_reverse]

theorem get3_map3 (f : Val → Val) (hf : f Val.nan = Val.nan)
    (a : Arr3) (b i j : Nat) :
    get3 (map3 f a) b i j = f (get3 a b i j) := by
  unfold get3 map3
  rw [getD_map_comm (map2 f) [] [] rfl a b]
  unfold map2
  rw [getD_map_comm (List.map f) [] [] rfl _ i]
  rw [getD_map_comm f Val.nan Val.nan hf _ j]

theorem get2_map2 (f : Val → Val) (hf : f Val.nan = Val.nan)
    (a : Arr2) (i j : Nat) :
    get2 (map2 f a) i j = f (get2 a i j) := by
  unfold get2 map2
  rw [getD_map_comm (List.map f) [] [] rfl a i]
  rw [getD_map_comm f Val.nan Val.nan hf _ j]

theorem rows_length_eq {α : Type} (a b : List (List α))
    (hshape : a.map List.length = b.map List.length) (i : Nat) :
    (a.getD i []).length = (b.getD i []).length := by
  have ha := getD_map_comm (List.length (α := α)) [] 0 rfl a i
  have hb := getD_map_comm (List.length (α := α)) [] 0 rfl b i
  rw [← ha, ← hb, hshape]

theorem get2_zip2 (f : Val → Val → Val) (hf : f Val.nan Val.nan = Val.nan)
    (a b : Arr2) (hshape : a.map List.length = b.map List.length) (i j : Nat) :
    get2 (zip2 f a b) i j = f (get2 a i j) (get2 b i j) := by
  have hlen : a.length = b.length := by
    have := congrArg List.length hshape
    simpa using this
  unfold get2 zip2
  rw [getD_zipWith_comm (List.zipWith f) [] rfl a b hlen i]
  exact getD_zipWith_comm f Val.nan hf _ _ (rows_length_eq a b hshape i) j

theorem get3_concat3 (r g b : Arr2) (i j : Nat) :
    get3 [r, g, b] 0 i j = get2 r i j
    ∧ get3 [r, g, b] 1 i j = get2 g i j
    ∧ get3 [r, g, b] 2 i j = get2 b i j := by
  exact ⟨rfl, rfl, rfl⟩

theorem get3_whereclip (a : Arr3) (b i j : Nat) :
    get3 (where3 (clip3 0 1 a)) b i j = whereGt0 (clipVal 0 1 (get3 a b i j)) := by
  unfold where3 clip3
  rw [get3_map3 whereGt0 rfl, get3_map3 (clipVal 0 1) rfl]

theorem whereclip_fin (v : Val)
    (h : isNan (whereGt0 (clipVal 0 1 v)) = false) :
    ∃ q : ℚ, whereGt0 (clipVal 0 1 v) = Val.fin q ∧ 0 < q ∧ q ≤ 1 := by
  cases v with
  | nan => simp [clipVal, whereGt0, gt0, isNan] at h
  | posinf =>
      refine ⟨1, ?_, one_pos, le_refl 1⟩
      simp [clipVal, whereGt0, gt0]
  | neginf => simp [clipVal, whereGt0, gt0, isNan] at h
  | fin q =>
      by_cases hq : 0 < max 0 (min 1 q)
      · refine ⟨max 0 (min 1 q), ?_, hq, ?_⟩
        · simp [clipVal, whereGt0, gt0, hq]
        · exact max_le (by norm_num) (min_le_left 1 q)
      · simp [clipVal, whereGt0, gt0, hq, isNan] at h

theorem unpackSingle_isOk {α : Type} (xs : List α) :
    (unpackSingle xs).isOk = true ↔ xs.length = 1 := by
  match xs with
  | [] => simp [unpackSingle, Except.isOk, Except.toBool]
  | [x] => simp [unpackSingle, Except.isOk, Except.toBool]
  | x :: y :: t => simp [unpackSingle, Except.isOk, Except.toBool]

theorem rect2_spec (H W : Nat) (a : Arr2) (h : rect2 H W a = true) :
    RectP H W a := by
  unfold rect2 at h
  rw [Bool.and_eq_true] at h
  obtain ⟨h1, h2⟩ := h
  have hlen : a.length = H := by simpa using h1
  refine ⟨hlen, fun i hi => ?_⟩
  have hi' : i < a.length := hlen ▸ hi
  rw [List.getD_eq_getElem a [] hi']
  have hmem : a[i] ∈ a := List.getElem_mem hi'
  have := List.all_eq_true.mp h2 _ hmem
  simpa using this

theorem rect_map2 (f : Val → Val) (H W : Nat) (a : Arr2) (h : RectP H W a) :
    RectP H W (map2 f a) := by
  obtain ⟨h1, h2⟩ := h
  refine ⟨by simpa [map2] using h1, fun i hi => ?_⟩
  unfold map2
  rw [getD_map_comm (List.map f) [] [] rfl a i]
  simpa using h2 i hi

theorem rect_zip2 (f : Val → Val → Val) (H W : Nat) (a b : Arr2)
    (ha : RectP H W a) (hb : RectP H W b) :
    RectP H W (zip2 f a b) := by
  obtain ⟨ha1, ha2⟩ := ha
  obtain ⟨hb1, hb2⟩ := hb
  have hlen : a.length = b.length := by rw [ha1, hb1]
  refine ⟨by simp [zip2, ha1, hb1], fun i hi => ?_⟩
  unfold zip2
  rw [getD_zipWith_comm (List.zipWith f) [] rfl a b hlen i]
  rw [List.length_zipWith, ha2 i hi, hb2 i hi]
  exact min_self W

theorem rect_falseColor (vv vh : Arr2) (H W : Nat)
    (hvv : RectP H W vv) (hvh : RectP H W vh) (b : Nat) (hb : b < 3) :
    RectP H W ((falseColor vv vh).getD b []) := by
  have hr : RectP H W (divScalar vv 600) := rect_map2 _ H W vv hvv
  have hg : RectP H W (divScalar vh 270) := rect_map2 _ H W vh hvh
  have hb2 : RectP H W (divScalar (divArr vv vh) 9) :=
    rect_map2 _ H W _ (rect_zip2 divVal H W vv vh hvv hvh)
  have hband : ∀ X : Arr3, ∀ k : Nat,
      (where3 (clip3 0 1 X)).getD k [] = map2 whereGt0 (map2 (clipVal 0 1) (X.getD k [])) := by
    intro X k
    unfold where3 clip3 map3
    rw [getD_map_comm (map2 whereGt0) [] [] rfl _ k]
    rw [getD_map_comm (map2 (clipVal 0 1)) [] [] rfl _ k]
  unfold falseColor
  rw [hband]
  interval_cases b
  · exact rect_map2 _ H W _ (rect_map2 _ H W _ hr)
  · exact rect_map2 _ H W _ (rect_map2 _ H W _ hg)
  · exact rect_map2 _ H W _ (rect_map2 _ H W _ hb2)

theorem get3_flip (F : Arr3) (H W : Nat) (b i j : Nat)
    (hrect : RectP H W (F.getD b [])) (hi : i < H) (hj : j < W) :
    get3 (flip3 F) b i j = get3 F b (H - 1 - i) (W - 1 - j) := by
  obtain ⟨h1, h2⟩ := hrect
  unfold get3 flip3
  rw [getD_map_comm (fun band : Arr2 => (band.map List.reverse).reverse) [] [] rfl F b]
  have hlenmap : ((F.getD b []).map List.reverse).length = H := by simpa using h1
  have hi' : i < ((F.getD b []).map List.reverse).length := by omega
  rw [getD_reverse_comm [] _ i hi']
  rw [hlenmap]
  rw [getD_map_comm List.reverse [] [] rfl (F.getD b []) (H - 1 - i)]
  have hrow : ((F.getD b []).getD (H - 1 - i) []).length = W :=
    h2 (H - 1 - i) (by omega)
  have hj' : j < ((F.getD b []).getD (H - 1 - i) []).length := by omega
  rw [getD_reverse_comm Val.nan _ j hj']
  rw [hrow]

/- ## Claim theorems -/

/-- C1: in every execution where a catalog search yields an empty item
collection, the subsequent item-selection operation fails — `items[0]`
with `IndexError`, `next(gen)` with `StopIteration`, single-element
unpacking of the filtered list with `ValueError` — and, as no cell
catches or retries, the exception is the overall result of the embedded
cell. -/
theorem c1_empty_search_fails (items : List Item) (h : items = []) :
    previewCell items = Except.error PyError.indexError
    ∧ smCell items = Except.error PyError.stopIteration
    ∧ hreaSelectCell items = Except.error PyError.valueError := by
  subst h
  exact ⟨rfl, rfl, rfl⟩

theorem c1_empty_search_fails_witness :
    ([] : List Item) = []
    ∧ (previewCell [] = Except.error PyError.indexError
       ∧ smCell [] = Except.error PyError.stopIteration
       ∧ hreaSelectCell [] = Except.error PyError.valueError) :=
  ⟨rfl, c1_empty_search_fails [] rfl⟩

/-- C2 counterexample: the single-element unpacking
`(item,) = [x for x in items if "Djibouti" in x.id]` is a
notebook-authored selection step that fails precisely because the number
of matching items (here two) differs from the expected count of one, so
the claim that no notebook-authored selection step can fail for
cardinality reasons is false. -/
theorem c2_counterexample :
    (djiboutiFilter [djiboutiItemA, djiboutiItemB]).length = 2
    ∧ hreaSelectCell [djiboutiItemA, djiboutiItemB] = Except.error PyError.valueError
    ∧ ¬ (∀ items : List Item, (unpackSingle (djiboutiFilter items)).isOk = true) := by
  refine ⟨rfl, rfl, fun h => ?_⟩
  exact absurd (h [djiboutiItemA, djiboutiItemB]) (by decide)

/-- C2 amended: the single-element unpacking in the HREA notebook is
itself a cardinality check authored in the notebook — it succeeds exactly
when the Djibouti filter matches one item and raises `ValueError` for
every other count; it is the only such check, the remaining selection
steps delegate all invariants to the libraries. -/
theorem c2_unpack_is_cardinality_check (items : List Item) :
    (unpackSingle (djiboutiFilter items)).isOk = true
      ↔ (djiboutiFilter items).length = 1 :=
  unpackSingle_isOk (djiboutiFilter items)

/-- C3 counterexample: the SM acquisition-mode search of the Sentinel-1
notebook is parameterized by the property query
`{"sar:instrument_mode": {"eq": "SM"}, "sar:polarizations": {"eq": ["VV","VH"]}}`
and by `limit=5`, criteria beyond collection name, bounding box, date
range and point intersection; hence not every search uses only those
criteria. -/
theorem c3_counterexample :
    sentinelSmSearch ∈ allSearches
    ∧ usesOnlyBasic sentinelSmSearch = false
    ∧ sentinelSmSearch.query ≠ []
    ∧ sentinelSmSearch.limit = some 5
    ∧ ¬ (∀ s ∈ allSearches, usesOnlyBasic s = true) := by
  refine ⟨by decide, rfl, by decide, rfl, fun h => ?_⟩
  exact absurd (h sentinelSmSearch (by decide)) (by decide)

/-- C3 amended: every catalog search queries by collection name and
optionally a bounding box, date range or point intersection; exactly one
search — the SM acquisition-mode example — additionally filters on the
`sar:instrument_mode` and `sar:polarizations` properties with a page
limit of 5, and no search uses any further criterion. -/
theorem c3_search_criteria :
    allSearches.filter (fun s => !usesOnlyBasic s) = [sentinelSmSearch]
    ∧ sentinelSmSearch.query
        = [⟨"sar:instrument_mode", "eq", QueryVal.str "SM"⟩,
           ⟨"sar:polarizations", "eq", QueryVal.strList ["VV", "VH"]⟩]
    ∧ sentinelSmSearch.limit = some 5
    ∧ allSearches.all (fun s => !s.collections.isEmpty) = true :=
  ⟨rfl, rfl, rfl, rfl⟩

/-- C4: item selection takes the first or the filtered result — `items[0]`
and `next(gen)` succeed exactly on the head of the returned collection,
and the Djibouti selection is exactly the sub-list of items whose id
contains the substring "Djibouti" (a sublist of the result, containing an
item iff it is a matching member). -/
theorem c4_selection_first_or_filtered (items : List Item) (x : Item) :
    (pyIndex items 0 = Except.ok x ↔ items.head? = some x)
    ∧ (pyNext items = Except.ok x ↔ items.head? = some x)
    ∧ List.Sublist (djiboutiFilter items) items
    ∧ (x ∈ djiboutiFilter items ↔ x ∈ items ∧ strContains "Djibouti" x.id = true) := by
  refine ⟨?_, ?_, ?_, ?_⟩
  · cases items with
    | nil => simp [pyIndex]
    | cons a t => simp [pyIndex]
  · cases items with
    | nil => simp [pyNext]
    | cons a t => simp [pyNext]
  · exact List.filter_sublist _
  · simp [djiboutiFilter, List.mem_filter]

/-- C5: pointwise description of the false-color composite — the band
axis concatenates exactly three bands, and at every pixel the red band is
`vv / 600`, the green band `vh / 270` and the blue band `(vv / vh) / 9`,
each clipped to `[0, 1]` and masked to NaN unless strictly positive. -/
theorem c5_false_color_composite (vv vh : Arr2)
    (hshape : vv.map List.length = vh.map List.length) (i j : Nat) :
    (falseColor vv vh).length = 3
    ∧ get3 (falseColor vv vh) 0 i j
        = whereGt0 (clipVal 0 1 (divVal (get2 vv i j) (Val.fin 600)))
    ∧ get3 (falseColor vv vh) 1 i j
        = whereGt0 (clipVal 0 1 (divVal (get2 vh i j) (Val.fin 270)))
    ∧ get3 (falseColor vv vh) 2 i j
        = whereGt0 (clipVal 0 1 (divVal (divVal (get2 vv i j) (get2 vh i j)) (Val.fin 9))) := by
  refine ⟨by simp [falseColor, where3, clip3, map3], ?_, ?_, ?_⟩
  · simp only [falseColor]
    rw [get3_whereclip, (get3_concat3 _ _ _ i j).1]
    rw [show divScalar vv 600 = map2 (fun v => divVal v (Val.fin 600)) vv from rfl]
    rw [get2_map2 (fun v => divVal v (Val.fin 600)) rfl vv i j]
  · simp only [falseColor]
    rw [get3_whereclip, (get3_concat3 _ _ _ i j).2.1]
    rw [show divScalar vh 270 = map2 (fun v => divVal v (Val.fin 270)) vh from rfl]
    rw [get2_map2 (fun v => divVal v (Val.fin 270)) rfl vh i j]
  · simp only [falseColor]
    rw [get3_whereclip, (get3_concat3 _ _ _ i j).2.2]
    rw [show divScalar (divArr vv vh) 9
          = map2 (fun v => divVal v (Val.fin 9)) (divArr vv vh) from rfl]
    rw [get2_map2 (fun v => divVal v (Val.fin 9)) rfl (divArr vv vh) i j]
    rw [show divArr vv vh = zip2 divVal vv vh from rfl]
    rw [get2_zip2 divVal rfl vv vh hshape i j]

theorem c5_false_color_composite_witness :
    ([[Val.fin 300]] : Arr2).map List.length = ([[Val.fin 135]] : Arr2).map List.length
    ∧ ((falseColor [[Val.fin 300]] [[Val.fin 135]]).length = 3
       ∧ get3 (falseColor [[Val.fin 300]] [[Val.fin 135]]) 0 0 0
           = whereGt0 (clipVal 0 1 (divVal (get2 [[Val.fin 300]] 0 0) (Val.fin 600)))
       ∧ get3 (falseColor [[Val.fin 300]] [[Val.fin 135]]) 1 0 0
           = whereGt0 (clipVal 0 1 (divVal (get2 [[Val.fin 135]] 0 0) (Val.fin 270)))
       ∧ get3 (falseColor [[Val.fin 300]] [[Val.fin 135]]) 2 0 0
           = whereGt0 (clipVal 0 1 (divVal (divVal (get2 [[Val.fin 300]] 0 0)
               (get2 [[Val.fin 135]] 0 0)) (Val.fin 9)))) :=
  ⟨rfl, c5_false_color_composite [[Val.fin 300]] [[Val.fin 135]] rfl 0 0⟩

/-- C6: the flip before the second rendering reverses both spatial axes
and leaves the band axis in place — for every band `b < 3` and in-range
spatial index `(i, j)` of the `H × W` composite, the rendered array at
`(b, i, j)` is the composite at `(b, H-1-i, W-1-j)` clipped to
`[0, 1]`. -/
theorem c6_flip_reverses_spatial_axes (vv vh : Arr2) (H W b i j : Nat)
    (hvv : rect2 H W vv = true) (hvh : rect2 H W vh = true)
    (hb : b < 3) (hi : i < H) (hj : j < W) :
    get3 (flippedComposite vv vh) b i j
      = clipVal 0 1 (get3 (falseColor vv vh) b (H - 1 - i) (W - 1 - j)) := by
  have hrect := rect_falseColor vv vh H W
    (rect2_spec H W vv hvv) (rect2_spec H W vh hvh) b hb
  unfold flippedComposite clip3
  rw [get3_map3 (clipVal 0 1) rfl]
  rw [get3_flip (falseColor vv vh) H W b i j hrect hi hj]

theorem c6_flip_reverses_spatial_axes_witness :
    rect2 1 1 [[Val.fin 1]] = true
    ∧ (0 : Nat) < 3 ∧ (0 : Nat) < 1
    ∧ get3 (flippedComposite [[Val.fin 1]] [[Val.fin 1]]) 0 0 0
        = clipVal 0 1 (get3 (falseColor [[Val.fin 1]] [[Val.fin 1]]) 0 (1 - 1 - 0) (1 - 1 - 0)) :=
  ⟨by decide, by decide, by decide,
   c6_flip_reverses_spatial_axes [[Val.fin 1]] [[Val.fin 1]] 1 1 0 0 0
     (by decide) (by decide) (by decide) (by decide) (by decide)⟩

/-- C7: every row retained after `dropna` in the distribution dataframe
has a strictly positive power value (it passed the `where(x > 0)` mask),
its amplitude and dB entries are exactly `np.sqrt` and `10 * np.log10` of
that value, and neither function was evaluated on its domain-error
region. -/
theorem c7_transforms_on_positive_arguments (vvflat : List Val)
    (r : Val × Val × Val) (hr : r ∈ dropna (dfRows vvflat)) :
    gt0 r.1 = true
    ∧ sqrtDomErr r.1 = false
    ∧ logDomErr r.1 = false
    ∧ r.2.1 = sqrtVal r.1
    ∧ r.2.2 = mulScalar 10 (log10Val r.1) := by
  unfold dropna at hr
  rw [List.mem_filter] at hr
  obtain ⟨hmem, hpred⟩ := hr
  unfold dfRows at hmem
  rw [List.mem_map] at hmem
  obtain ⟨v, hv, hveq⟩ := hmem
  unfold rawOf at hv
  rw [List.mem_map] at hv
  obtain ⟨u, _, hueq⟩ := hv
  subst hveq
  have hnanv : isNan v = false := by
    by_contra hne
    have : isNan v = true := by
      cases hb : isNan v with
      | true => rfl
      | false => exact absurd hb hne
    simp [this] at hpred
  have hg : gt0 v = true := by
    by_cases hgu : gt0 u = true
    · have : whereGt0 u = u := by simp [whereGt0, hgu]
      rw [this] at hueq
      rw [hueq] at hgu
      exact hgu
    · have : whereGt0 u = Val.nan := by
        simp [whereGt0] at hgu ⊢
        simp [hgu]
      rw [this] at hueq
      rw [← hueq] at hnanv
      simp [isNan] at hnanv
  refine ⟨hg, ?_, ?_, rfl, rfl⟩
  · cases v with
    | nan => simp [gt0] at hg
    | posinf => rfl
    | neginf => simp [gt0] at hg
    | fin q =>
        have hq : 0 < q := by simpa [gt0] using hg
        simp [sqrtDomErr]
        linarith
  · cases v with
    | nan => simp [gt0] at hg
    | posinf => rfl
    | neginf => simp [gt0] at hg
    | fin q =>
        have hq : 0 < q := by simpa [gt0] using hg
        simp [logDomErr]
        linarith

theorem c7_transforms_on_positive_arguments_witness :
    (Val.posinf, sqrtVal Val.posinf, mulScalar 10 (log10Val Val.posinf))
        ∈ dropna (dfRows [Val.fin (-1), Val.posinf])
    ∧ (gt0 (Val.posinf, sqrtVal Val.posinf, mulScalar 10 (log10Val Val.posinf)).1 = true
       ∧ sqrtDomErr (Val.posinf, sqrtVal Val.posinf,
           mulScalar 10 (log10Val Val.posinf)).1 = false
       ∧ logDomErr (Val.posinf, sqrtVal Val.posinf,
           mulScalar 10 (log10Val Val.posinf)).1 = false
       ∧ (Val.posinf, sqrtVal Val.posinf, mulScalar 10 (log10Val Val.posinf)).2.1
           = sqrtVal (Val.posinf, sqrtVal Val.posinf,
               mulScalar 10 (log10Val Val.posinf)).1
       ∧ (Val.posinf, sqrtVal Val.posinf, mulScalar 10 (log10Val Val.posinf)).2.2
           = mulScalar 10 (log10Val (Val.posinf, sqrtVal Val.posinf,
               mulScalar 10 (log10Val Val.posinf)).1)) :=
  ⟨by decide, c7_transforms_on_positive_arguments [Val.fin (-1), Val.posinf] _ (by decide)⟩

/-- C8: each notebook is a strictly sequential pipeline — over the
literal cell-order operation sequences of both notebooks, credentials are
configured before every search, each search happens exactly once and
before its unique item selection, raster assets of selected items are
opened only after the selection, and every plot of transformed data comes
after the transform producing it. -/
theorem c8_sequential_pipeline :
    wellOrdered sentinelOps = true ∧ wellOrdered hreaOps = true :=
  ⟨by decide, by decide⟩

/-- C9: with `i_window = 2`, the window-read cell selects the third
window yielded by `src.block_windows()` — zero-based list position 2,
grid position `(1, 0)` for the notebook's file, with offsets
`(col 0, row 256)` — and not the second window; in general the window
handed to `isel_window` is the one at list position 2 of any file whose
block-window list has at least three entries. -/
theorem c9_window_selection (ws : List ((Nat × Nat) × Window))
    (h : 3 ≤ ws.length) :
    hreaWindows
      = [((0, 0), ⟨0, 0, 256, 256⟩), ((0, 1), ⟨256, 0, 142, 256⟩),
         ((1, 0), ⟨0, 256, 256, 165⟩), ((1, 1), ⟨256, 256, 142, 165⟩)]
    ∧ pyIndex hreaWindows i_window = Except.ok ((1, 0), ⟨0, 256, 256, 165⟩)
    ∧ selectedWindow hreaWindows = Except.ok ⟨0, 256, 256, 165⟩
    ∧ pyIndex hreaWindows 1 ≠ pyIndex hreaWindows i_window
    ∧ ∃ hw : i_window < ws.length,
        selectedWindow ws = Except.ok (ws.get ⟨i_window, hw⟩).2 := by
  have hw : i_window < ws.length := by
    unfold i_window
    omega
  refine ⟨by decide, rfl, rfl, ?_, hw, ?_⟩
  · intro hcontra
    exact absurd (Except.ok.inj hcontra) (by decide)
  · unfold selectedWindow pyIndex
    rw [List.get?_eq_get hw]
    rfl

theorem c9_window_selection_witness :
    3 ≤ hreaWindows.length
    ∧ (hreaWindows
        = [((0, 0), ⟨0, 0, 256, 256⟩), ((0, 1), ⟨256, 0, 142, 256⟩),
           ((1, 0), ⟨0, 256, 256, 165⟩), ((1, 1), ⟨256, 256, 142, 165⟩)]
       ∧ pyIndex hreaWindows i_window = Except.ok ((1, 0), ⟨0, 256, 256, 165⟩)
       ∧ selectedWindow hreaWindows = Except.ok ⟨0, 256, 256, 165⟩
       ∧ pyIndex hreaWindows 1 ≠ pyIndex hreaWindows i_window
       ∧ ∃ hw : i_window < hreaWindows.length,
           selectedWindow hreaWindows = Except.ok (hreaWindows.get ⟨i_window, hw⟩).2) :=
  ⟨by decide, c9_window_selection hreaWindows (by decide)⟩

/-- C10: every non-NaN entry of the composite handed to the plotting call
lies in the half-open interval `(0, 1]`; the clip maps `+inf` to 1 and the
`where(x > 0)` mask turns every non-positive value, zeros included, into
NaN. -/
theorem c10_composite_in_unit_interval (vv vh : Arr2) (b i j : Nat)
    (h : isNan (get3 (falseColor vv vh) b i j) = false) :
    (∃ q : ℚ, get3 (falseColor vv vh) b i j = Val.fin q ∧ 0 < q ∧ q ≤ 1)
    ∧ clipVal 0 1 Val.posinf = Val.fin 1
    ∧ whereGt0 (Val.fin 0) = Val.nan := by
  refine ⟨?_, rfl, by decide⟩
  have hx : get3 (falseColor vv vh) b i j
      = whereGt0 (clipVal 0 1 (get3 [divScalar vv 600, divScalar vh 270,
          divScalar (divArr vv vh) 9] b i j)) := by
    simp only [falseColor]
    rw [get3_whereclip]
  rw [hx] at h ⊢
  exact whereclip_fin _ h

theorem c10_composite_in_unit_interval_witness :
    isNan (get3 (falseColor [[Val.posinf]] [[Val.posinf]]) 0 0 0) = false
    ∧ ((∃ q : ℚ, get3 (falseColor [[Val.posinf]] [[Val.posinf]]) 0 0 0
          = Val.fin q ∧ 0 < q ∧ q ≤ 1)
       ∧ clipVal 0 1 Val.posinf = Val.fin 1
       ∧ whereGt0 (Val.fin 0) = Val.nan) :=
  ⟨by decide, c10_composite_in_unit_interval [[Val.posinf]] [[Val.posinf]] 0 0 0 (by decide)⟩

end PCExamples
